import Mathlib

/-!
Verification of `basic_resize.py`, a thin wrapper around a video framework's
resizing filters.  The embedding models the two entry points `scale` and
`pixel`, the kernel registry `_KERNELS` and the lookup `_pick_resizer`.

Modelling choices:
* A clip is its `width`, `height` (natural numbers) and optional pixel
  format carrying the two chroma-subsampling factors.
* The scale factor is a rational number; Python's `int(x)` on the
  non-negative product `clip.width * scale` is truncation toward zero,
  i.e. the floor.
* A resize invocation is not performed; instead the functions return the
  `KernelCall` that would be issued (selected kernel, clip, keyword
  arguments `width` and `height`), or a `ValueError` message via
  `Except String`.
* `kernel.lower()` is modelled by mapping `Char.toLower` over the
  characters (all registry keys are ASCII).
-/

structure VideoFormat where
  subsampling_w : Nat
  subsampling_h : Nat
deriving DecidableEq, Repr

structure VideoNode where
  width : Nat
  height : Nat
  format : Option VideoFormat
deriving DecidableEq, Repr

/-- The seven resize operations of the external framework referenced by the
registry (`core.resize.Point`, ..., `core.resize.Spline64`). -/
inductive ResizeKernel where
  | Point
  | Bilinear
  | Bicubic
  | Lanczos
  | Spline16
  | Spline36
  | Spline64
deriving DecidableEq, Repr

/-- The module-level kernel registry `_KERNELS`, an insertion-ordered map
from lowercase kernel names to resize operations. -/
def _KERNELS : List (String × ResizeKernel) :=
  [("point",    .Point),
   ("bilinear", .Bilinear),
   ("bicubic",  .Bicubic),
   ("lanczos",  .Lanczos),
   ("spline16", .Spline16),
   ("spline36", .Spline36),
   ("spline64", .Spline64)]

/-- Python's `str.lower()` on the ASCII strings this module handles:
lowercase every character. -/
def pyLower (s : String) : String :=
  ⟨s.data.map Char.toLower⟩

/-- The error message of the unknown-kernel `ValueError`:
`f"Unknown kernel '{kernel}'. Choose from: {', '.join(_KERNELS)}"`
(joining a dict iterates its keys in insertion order). -/
def unknownKernelMsg (kernel : String) : String :=
  "Unknown kernel '" ++ kernel ++ "'. Choose from: "
    ++ String.intercalate ", " (_KERNELS.map Prod.fst)

/-- Embedding of `_pick_resizer`: look up `kernel.lower()` in `_KERNELS`;
on a `KeyError` raise the unknown-kernel `ValueError`. -/
def _pick_resizer (kernel : String) : Except String ResizeKernel :=
  match _KERNELS.lookup (pyLower kernel) with
  | some k => .ok k
  | none   => .error (unknownKernelMsg kernel)

/-- The resize invocation a successful call would issue: the selected
kernel applied to the clip with keyword arguments `width` and `height`
(`none` models Python `None`). -/
structure KernelCall where
  kernel : ResizeKernel
  clip : VideoNode
  width : Option Int
  height : Option Int
deriving DecidableEq, Repr

/-- Embedding of `scale(clip, scale, kernel)`: reject a non-positive scale
factor, compute the provisional size `max 1 (int(dim * scale))`, align it
down to the subsampling modulus `1 << subsampling` (clamped below by the
modulus) when the format is present and the modulus exceeds 1, then invoke
the selected kernel. -/
def scale (clip : VideoNode) (s : ℚ) (kernel : String) :
    Except String KernelCall :=
  if s ≤ 0 then .error "scale must be > 0"
  else
    let w₀ : Nat := max 1 (Int.toNat ⌊(clip.width : ℚ) * s⌋)
    let h₀ : Nat := max 1 (Int.toNat ⌊(clip.height : ℚ) * s⌋)
    let wh : Nat × Nat :=
      match clip.format with
      | none => (w₀, h₀)
      | some fmt =>
          let mod_w : Nat := 2 ^ fmt.subsampling_w
          let mod_h : Nat := 2 ^ fmt.subsampling_h
          let w := if mod_w > 1 then max mod_w (w₀ - w₀ % mod_w) else w₀
          let h := if mod_h > 1 then max mod_h (h₀ - h₀ % mod_h) else h₀
          (w, h)
    match _pick_resizer kernel with
    | .error e => .error e
    | .ok k => .ok ⟨k, clip, some (wh.1 : Int), some (wh.2 : Int)⟩

/-- Embedding of `pixel(clip, width, height, kernel)`. -/
def pixel (clip : VideoNode) (width height : Option Int) (kernel : String) :
    Except String KernelCall :=
  match _pick_resizer kernel with
  | .error e => .error e
  | .ok k => .ok ⟨k, clip, width, height⟩

/-!
State-threaded view of the module, for the statelessness claim: the
registry is the only module state; every access to it is threaded
explicitly, so that "the call does not modify the registry" is a
property of the functions rather than a convention of the embedding.
-/

/-- State-threaded `_pick_resizer`: reads the registry, never writes it. -/
def _pick_resizerSt (reg : List (String × ResizeKernel)) (kernel : String) :
    Except String ResizeKernel × List (String × ResizeKernel) :=
  (match reg.lookup (pyLower kernel) with
   | some k => .ok k
   | none   => .error ("Unknown kernel '" ++ kernel ++ "'. Choose from: "
                 ++ String.intercalate ", " (reg.map Prod.fst)),
   reg)

/-- State-threaded `scale`. -/
def scaleSt (reg : List (String × ResizeKernel)) (clip : VideoNode)
    (s : ℚ) (kernel : String) :
    Except String KernelCall × List (String × ResizeKernel) :=
  if s ≤ 0 then (.error "scale must be > 0", reg)
  else
    let w₀ : Nat := max 1 (Int.toNat ⌊(clip.width : ℚ) * s⌋)
    let h₀ : Nat := max 1 (Int.toNat ⌊(clip.height : ℚ) * s⌋)
    let wh : Nat × Nat :=
      match clip.format with
      | none => (w₀, h₀)
      | some fmt =>
          let mod_w : Nat := 2 ^ fmt.subsampling_w
          let mod_h : Nat := 2 ^ fmt.subsampling_h
          let w := if mod_w > 1 then max mod_w (w₀ - w₀ % mod_w) else w₀
          let h := if mod_h > 1 then max mod_h (h₀ - h₀ % mod_h) else h₀
          (w, h)
    let pr := _pick_resizerSt reg kernel
    match pr.1 with
    | .error e => (.error e, pr.2)
    | .ok k => (.ok ⟨k, clip, some (wh.1 : Int), some (wh.2 : Int)⟩, pr.2)

/-- State-threaded `pixel`. -/
def pixelSt (reg : List (String × ResizeKernel)) (clip : VideoNode)
    (width height : Option Int) (kernel : String) :
    Except String KernelCall × List (String × ResizeKernel) :=
  let pr := _pick_resizerSt reg kernel
  match pr.1 with
  | .error e => (.error e, pr.2)
  | .ok k => (.ok ⟨k, clip, width, height⟩, pr.2)

deriving instance DecidableEq for Except

/-! ### Helper lemmas -/

theorem lookup_eq_none_of_not_mem {α β : Type} [BEq α] [LawfulBEq α]
    {l : List (α × β)} {a : α} (h : a ∉ l.map Prod.fst) : l.lookup a = none := by
  induction l with
  | nil => rfl
  | cons p t ih =>
    obtain ⟨k, b⟩ := p
    rw [List.map_cons, List.mem_cons, not_or] at h
    have hbeq : (a == k) = false := beq_eq_false_iff_ne.mpr h.1
    simp [List.lookup, hbeq, ih h.2]

/-! ### Claim theorems -/

/-- C3: for every scale factor ≤ 0, `scale` fails with the value error
`"scale must be > 0"` before invoking any kernel — no `KernelCall` is
produced, whatever the clip and the kernel name. -/
theorem scale_nonpos_rejected (clip : VideoNode) (s : ℚ) (kernel : String)
    (hs : s ≤ 0) : scale clip s kernel = .error "scale must be > 0" := by
  simp [scale, hs]

theorem scale_nonpos_rejected_w :
    (0 : ℚ) ≤ 0 ∧
    scale ⟨640, 480, none⟩ 0 "nosuchkernel" = .error "scale must be > 0" :=
  ⟨le_refl 0, scale_nonpos_rejected ⟨640, 480, none⟩ 0 "nosuchkernel" (le_refl 0)⟩

/-- C6: `pixel` passes the caller-supplied width and height through
unchanged to the selected kernel call; the only validation performed is
the kernel-name lookup. -/
theorem pixel_passthrough (clip : VideoNode) (w h : Int) (kernel : String)
    (k : ResizeKernel) (hk : _pick_resizer kernel = .ok k) :
    pixel clip (some w) (some h) kernel = .ok ⟨k, clip, some w, some h⟩ := by
  simp [pixel, hk]

theorem pixel_passthrough_w :
    _pick_resizer "bilinear" = .ok .Bilinear ∧
    pixel ⟨640, 480, none⟩ (some 1280) (some (-7)) "bilinear"
      = .ok ⟨.Bilinear, ⟨640, 480, none⟩, some 1280, some (-7)⟩ :=
  ⟨by decide, pixel_passthrough ⟨640, 480, none⟩ 1280 (-7) "bilinear" .Bilinear (by decide)⟩

/-- C4: every kernel-name string whose lowercasing is one of the seven
registry keys is accepted by `_pick_resizer`, which returns exactly the
operation registered under the lowercased name. -/
theorem pick_resizer_ok (kernel : String)
    (h : pyLower kernel ∈ _KERNELS.map Prod.fst) :
    ∃ k, _KERNELS.lookup (pyLower kernel) = some k ∧ _pick_resizer kernel = .ok k := by
  unfold _pick_resizer
  simp only [_KERNELS, List.map_cons, List.map_nil, List.mem_cons,
    List.not_mem_nil, or_false] at h
  rcases h with h | h | h | h | h | h | h <;> rw [h]
  · exact ⟨.Point, by decide, by rfl⟩
  · exact ⟨.Bilinear, by decide, by rfl⟩
  · exact ⟨.Bicubic, by decide, by rfl⟩
  · exact ⟨.Lanczos, by decide, by rfl⟩
  · exact ⟨.Spline16, by decide, by rfl⟩
  · exact ⟨.Spline36, by decide, by rfl⟩
  · exact ⟨.Spline64, by decide, by rfl⟩

theorem pick_resizer_ok_w :
    pyLower "LaNcZoS" ∈ _KERNELS.map Prod.fst ∧
    ∃ k, _KERNELS.lookup (pyLower "LaNcZoS") = some k ∧
      _pick_resizer "LaNcZoS" = .ok k :=
  ⟨by decide, pick_resizer_ok "LaNcZoS" (by decide)⟩

/-- C5: a kernel-name string whose lowercasing matches no registry key is
rejected with the unknown-kernel value error, and that error message
contains every one of the seven supported kernel names. -/
theorem pick_resizer_unknown (kernel : String)
    (h : pyLower kernel ∉ _KERNELS.map Prod.fst) :
    _pick_resizer kernel = .error (unknownKernelMsg kernel) ∧
    ∀ n ∈ _KERNELS.map Prod.fst, n.data <:+: (unknownKernelMsg kernel).data := by
  constructor
  · unfold _pick_resizer
    rw [lookup_eq_none_of_not_mem h]
  · intro n hn
    have hmsg : (unknownKernelMsg kernel).data
        = ("Unknown kernel '" ++ kernel ++ "'. Choose from: ").data
          ++ (String.intercalate ", " (_KERNELS.map Prod.fst)).data := by
      simp [unknownKernelMsg, String.data_append, String.append_assoc]
    rw [hmsg]
    have hinf : n.data <:+: (String.intercalate ", " (_KERNELS.map Prod.fst)).data := by
      simp only [_KERNELS, List.map_cons, List.map_nil, List.mem_cons,
        List.not_mem_nil, or_false] at hn
      rcases hn with h' | h' | h' | h' | h' | h' | h' <;> rw [h'] <;> decide
    exact hinf.trans (List.suffix_append _ _).isInfix

theorem pick_resizer_unknown_w :
    pyLower "Box" ∉ _KERNELS.map Prod.fst ∧
    (_pick_resizer "Box" = .error (unknownKernelMsg "Box") ∧
      ∀ n ∈ _KERNELS.map Prod.fst, n.data <:+: (unknownKernelMsg "Box").data) :=
  ⟨by decide, pick_resizer_unknown "Box" (by decide)⟩

/-- Characterization of a successful `scale` call on a clip that carries a
format: each axis is the provisional dimension, aligned down and clamped
when the axis modulus exceeds 1. -/
theorem scale_ok_char (clip : VideoNode) (fmt : VideoFormat) (s : ℚ)
    (kernel : String) (k : ResizeKernel) (hs : 0 < s) (hf : clip.format = some fmt)
    (hk : _pick_resizer kernel = .ok k) :
    scale clip s kernel = .ok ⟨k, clip,
      some ((if 1 < 2 ^ fmt.subsampling_w
             then max (2 ^ fmt.subsampling_w)
               (max 1 (Int.toNat ⌊(clip.width : ℚ) * s⌋)
                 - max 1 (Int.toNat ⌊(clip.width : ℚ) * s⌋) % 2 ^ fmt.subsampling_w)
             else max 1 (Int.toNat ⌊(clip.width : ℚ) * s⌋) : Nat) : Int),
      some ((if 1 < 2 ^ fmt.subsampling_h
             then max (2 ^ fmt.subsampling_h)
               (max 1 (Int.toNat ⌊(clip.height : ℚ) * s⌋)
                 - max 1 (Int.toNat ⌊(clip.height : ℚ) * s⌋) % 2 ^ fmt.subsampling_h)
             else max 1 (Int.toNat ⌊(clip.height : ℚ) * s⌋) : Nat) : Int)⟩ := by
  simp only [scale, hf, hk, if_neg hs.not_le, gt_iff_lt]

/-- C1: on an axis whose subsampling factor is positive, a successful
`scale` call passes the provisional dimension rounded down to the nearest
multiple of `2 ^ subsampling_factor`, clamped below by that multiple, and
the final dimension is never below `2 ^ subsampling_factor`. -/
theorem scale_subsampled_align (clip : VideoNode) (fmt : VideoFormat) (s : ℚ)
    (kernel : String) (k : ResizeKernel) (hs : 0 < s) (hf : clip.format = some fmt)
    (hk : _pick_resizer kernel = .ok k) :
    ∃ w h : Nat, scale clip s kernel = .ok ⟨k, clip, some (w : Int), some (h : Int)⟩ ∧
      (0 < fmt.subsampling_w →
        w = max (2 ^ fmt.subsampling_w)
              (2 ^ fmt.subsampling_w *
                (max 1 (Int.toNat ⌊(clip.width : ℚ) * s⌋) / 2 ^ fmt.subsampling_w)) ∧
        2 ^ fmt.subsampling_w ≤ w) ∧
      (0 < fmt.subsampling_h →
        h = max (2 ^ fmt.subsampling_h)
              (2 ^ fmt.subsampling_h *
                (max 1 (Int.toNat ⌊(clip.height : ℚ) * s⌋) / 2 ^ fmt.subsampling_h)) ∧
        2 ^ fmt.subsampling_h ≤ h) := by
  refine ⟨_, _, scale_ok_char clip fmt s kernel k hs hf hk, ?_, ?_⟩
  · intro hw
    have h2 : 1 < 2 ^ fmt.subsampling_w := Nat.one_lt_two_pow_iff.mpr hw.ne'
    rw [if_pos h2]
    refine ⟨?_, le_max_left _ _⟩
    congr 1
    rw [Nat.sub_eq_iff_eq_add (Nat.mod_le _ _)]
    exact (Nat.div_add_mod _ _).symm
  · intro hh
    have h2 : 1 < 2 ^ fmt.subsampling_h := Nat.one_lt_two_pow_iff.mpr hh.ne'
    rw [if_pos h2]
    refine ⟨?_, le_max_left _ _⟩
    congr 1
    rw [Nat.sub_eq_iff_eq_add (Nat.mod_le _ _)]
    exact (Nat.div_add_mod _ _).symm

theorem scale_subsampled_align_w :
    (0 : ℚ) < 2 ∧
    (∃ w h : Nat,
      scale ⟨100, 100, some ⟨1, 1⟩⟩ 2 "point"
        = .ok ⟨.Point, ⟨100, 100, some ⟨1, 1⟩⟩, some (w : Int), some (h : Int)⟩ ∧
      (0 < (1 : Nat) →
        w = max (2 ^ (1 : Nat))
              (2 ^ (1 : Nat) * (max 1 (Int.toNat ⌊((100 : Nat) : ℚ) * 2⌋) / 2 ^ (1 : Nat))) ∧
        2 ^ (1 : Nat) ≤ w) ∧
      (0 < (1 : Nat) →
        h = max (2 ^ (1 : Nat))
              (2 ^ (1 : Nat) * (max 1 (Int.toNat ⌊((100 : Nat) : ℚ) * 2⌋) / 2 ^ (1 : Nat))) ∧
        2 ^ (1 : Nat) ≤ h)) :=
  ⟨by decide, scale_subsampled_align ⟨100, 100, some ⟨1, 1⟩⟩ ⟨1, 1⟩ 2 "point" .Point
    (by decide) rfl (by decide)⟩

/-- C2: on a clip with no format, or a format with zero subsampling on
both axes, a successful `scale` call passes exactly
`max 1 ⌊dimension * s⌋` on each axis to the kernel. -/
theorem scale_no_subsampling (clip : VideoNode) (s : ℚ) (kernel : String)
    (k : ResizeKernel) (hs : 0 < s)
    (hf : clip.format = none ∨ clip.format = some ⟨0, 0⟩)
    (hk : _pick_resizer kernel = .ok k) :
    scale clip s kernel = .ok ⟨k, clip,
      some ((max 1 (Int.toNat ⌊(clip.width : ℚ) * s⌋) : Nat) : Int),
      some ((max 1 (Int.toNat ⌊(clip.height : ℚ) * s⌋) : Nat) : Int)⟩ := by
  rcases hf with hf | hf
  · simp [scale, hf, hk, hs.not_le]
  · have e1 : (⟨0, 0⟩ : VideoFormat).subsampling_w = 0 := rfl
    have e2 : (⟨0, 0⟩ : VideoFormat).subsampling_h = 0 := rfl
    rw [scale_ok_char clip ⟨0, 0⟩ s kernel k hs hf hk, e1, e2, pow_zero,
      if_neg (lt_irrefl 1), if_neg (lt_irrefl 1)]

theorem scale_no_subsampling_w :
    (0 : ℚ) < 2 ∧
    scale ⟨640, 480, none⟩ 2 "spline36" = .ok ⟨.Spline36, ⟨640, 480, none⟩,
      some ((max 1 (Int.toNat ⌊((640 : Nat) : ℚ) * 2⌋) : Nat) : Int),
      some ((max 1 (Int.toNat ⌊((480 : Nat) : ℚ) * 2⌋) : Nat) : Int)⟩ :=
  ⟨by decide, scale_no_subsampling ⟨640, 480, none⟩ 2 "spline36" .Spline36 (by decide)
    (Or.inl rfl) (by decide)⟩

/-- C7: a 101-wide clip with horizontal subsampling factor 1, scaled by
one half, has provisional width `⌊101 / 2⌋ = 50`; 50 is already a multiple
of 2, so the width passed to the kernel is 50. -/
theorem scale_101_half :
    max 1 (Int.toNat ⌊(((⟨101, 100, some ⟨1, 0⟩⟩ : VideoNode).width : ℚ) * (1 / 2))⌋) = 50 ∧
    50 % 2 ^ (1 : Nat) = 0 ∧
    scale ⟨101, 100, some ⟨1, 0⟩⟩ (1 / 2) "bilinear"
      = .ok ⟨.Bilinear, ⟨101, 100, some ⟨1, 0⟩⟩, some (50 : Int), some (50 : Int)⟩ := by
  have hfl : ⌊(((⟨101, 100, some ⟨1, 0⟩⟩ : VideoNode).width : ℚ) * (1 / 2))⌋ = (50 : Int) := by
    norm_num
  have hfl2 : ⌊(((⟨101, 100, some ⟨1, 0⟩⟩ : VideoNode).height : ℚ) * (1 / 2))⌋ = (50 : Int) := by
    norm_num
  refine ⟨by rw [hfl]; decide, by decide, ?_⟩
  rw [scale_ok_char ⟨101, 100, some ⟨1, 0⟩⟩ ⟨1, 0⟩ (1 / 2) "bilinear" .Bilinear
    (by norm_num) rfl (by decide), hfl, hfl2]
  decide

/-- C9: the scale-factor check precedes the kernel-name lookup — with a
non-positive scale factor and an unrecognized kernel name, `scale` raises
the scale-factor value error, which is distinct from the unknown-kernel
error message. -/
theorem scale_error_precedence (clip : VideoNode) (s : ℚ) (kernel : String)
    (hs : s ≤ 0) (hk : pyLower kernel ∉ _KERNELS.map Prod.fst) :
    scale clip s kernel = .error "scale must be > 0" ∧
      "scale must be > 0" ≠ unknownKernelMsg kernel := by
  refine ⟨by simp [scale, hs], fun hcontra => ?_⟩
  have hlen := congrArg String.length hcontra
  simp only [unknownKernelMsg, String.length_append] at hlen
  have h1 : ("scale must be > 0").length = 17 := by decide
  have h2 : ("Unknown kernel '").length = 16 := by decide
  have h3 : ("'. Choose from: ").length = 16 := by decide
  have h4 : (String.intercalate ", " (_KERNELS.map Prod.fst)).length = 63 := by decide
  rw [h1, h2, h3, h4] at hlen
  omega

theorem scale_error_precedence_w :
    (0 : ℚ) ≤ 0 ∧ pyLower "Box" ∉ _KERNELS.map Prod.fst ∧
    (scale ⟨640, 480, none⟩ 0 "Box" = .error "scale must be > 0" ∧
      "scale must be > 0" ≠ unknownKernelMsg "Box") :=
  ⟨by decide, by decide,
    scale_error_precedence ⟨640, 480, none⟩ 0 "Box" (by decide) (by decide)⟩

/-- C10: for a positive scale factor and a recognized kernel, the
dimensions `scale` passes to the kernel are at least 1, at least
`2 ^ subsampling_factor` on a subsampled axis, and equal to
`2 ^ subsampling_factor` there whenever the clamped provisional dimension
is below that modulus. -/
theorem scale_dims_invariant (clip : VideoNode) (s : ℚ) (kernel : String)
    (k : ResizeKernel) (hs : 0 < s) (hk : _pick_resizer kernel = .ok k) :
    ∃ w h : Nat, scale clip s kernel = .ok ⟨k, clip, some (w : Int), some (h : Int)⟩ ∧
      1 ≤ w ∧ 1 ≤ h ∧
      ∀ fmt, clip.format = some fmt →
        (0 < fmt.subsampling_w →
          2 ^ fmt.subsampling_w ≤ w ∧
          (max 1 (Int.toNat ⌊(clip.width : ℚ) * s⌋) < 2 ^ fmt.subsampling_w →
            w = 2 ^ fmt.subsampling_w)) ∧
        (0 < fmt.subsampling_h →
          2 ^ fmt.subsampling_h ≤ h ∧
          (max 1 (Int.toNat ⌊(clip.height : ℚ) * s⌋) < 2 ^ fmt.subsampling_h →
            h = 2 ^ fmt.subsampling_h)) := by
  cases hfc : clip.format with
  | none =>
      have heq : scale clip s kernel = .ok ⟨k, clip,
          some ((max 1 (Int.toNat ⌊(clip.width : ℚ) * s⌋) : Nat) : Int),
          some ((max 1 (Int.toNat ⌊(clip.height : ℚ) * s⌋) : Nat) : Int)⟩ := by
        simp only [scale, hfc, hk, if_neg hs.not_le]
      exact ⟨_, _, heq, le_max_left _ _, le_max_left _ _, fun fmt hfmt => by cases hfmt⟩
  | some fmt =>
      refine ⟨_, _, scale_ok_char clip fmt s kernel k hs hfc hk, ?_, ?_, ?_⟩
      · split
        · exact le_trans Nat.one_le_two_pow (le_max_left _ _)
        · exact le_max_left _ _
      · split
        · exact le_trans Nat.one_le_two_pow (le_max_left _ _)
        · exact le_max_left _ _
      · intro fmt' hfmt'
        injection hfmt' with hinj
        subst hinj
        constructor
        · intro hw
          have h2 : 1 < 2 ^ fmt.subsampling_w := Nat.one_lt_two_pow_iff.mpr hw.ne'
          rw [if_pos h2]
          refine ⟨le_max_left _ _, fun hlt => ?_⟩
          rw [Nat.mod_eq_of_lt hlt, Nat.sub_self, Nat.max_zero]
        · intro hh
          have h2 : 1 < 2 ^ fmt.subsampling_h := Nat.one_lt_two_pow_iff.mpr hh.ne'
          rw [if_pos h2]
          refine ⟨le_max_left _ _, fun hlt => ?_⟩
          rw [Nat.mod_eq_of_lt hlt, Nat.sub_self, Nat.max_zero]

theorem scale_dims_invariant_w :
    (0 : ℚ) < 1 ∧ _pick_resizer "lanczos" = .ok .Lanczos ∧
    (∃ w h : Nat,
      scale ⟨3, 3, some ⟨2, 2⟩⟩ 1 "lanczos"
        = .ok ⟨.Lanczos, ⟨3, 3, some ⟨2, 2⟩⟩, some (w : Int), some (h : Int)⟩ ∧
      1 ≤ w ∧ 1 ≤ h ∧
      ∀ fmt, some (⟨2, 2⟩ : VideoFormat) = some fmt →
        (0 < fmt.subsampling_w →
          2 ^ fmt.subsampling_w ≤ w ∧
          (max 1 (Int.toNat ⌊(((⟨3, 3, some ⟨2, 2⟩⟩ : VideoNode).width : ℚ) * 1)⌋)
              < 2 ^ fmt.subsampling_w → w = 2 ^ fmt.subsampling_w)) ∧
        (0 < fmt.subsampling_h →
          2 ^ fmt.subsampling_h ≤ h ∧
          (max 1 (Int.toNat ⌊(((⟨3, 3, some ⟨2, 2⟩⟩ : VideoNode).height : ℚ) * 1)⌋)
              < 2 ^ fmt.subsampling_h → h = 2 ^ fmt.subsampling_h))) :=
  ⟨by decide, by decide,
    scale_dims_invariant ⟨3, 3, some ⟨2, 2⟩⟩ 1 "lanczos" .Lanczos (by decide) (by decide)⟩

/-- C8: both entry points are deterministic and stateless: threading the
registry through a call leaves it unchanged, an identical repeated call
yields the identical result, and the state-threaded functions at the
load-time registry agree with the pure `scale` and `pixel`. -/
theorem wrapper_stateless (reg : List (String × ResizeKernel)) (clip : VideoNode)
    (s : ℚ) (w h : Option Int) (kernel : String) :
    (scaleSt reg clip s kernel).2 = reg ∧
    (pixelSt reg clip w h kernel).2 = reg ∧
    scaleSt (scaleSt reg clip s kernel).2 clip s kernel = scaleSt reg clip s kernel ∧
    pixelSt (pixelSt reg clip w h kernel).2 clip w h kernel = pixelSt reg clip w h kernel ∧
    (scaleSt _KERNELS clip s kernel).1 = scale clip s kernel ∧
    (pixelSt _KERNELS clip w h kernel).1 = pixel clip w h kernel := by
  have hsc : ∀ r, (scaleSt r clip s kernel).2 = r := by
    intro r
    by_cases hle : s ≤ 0
    · simp [scaleSt, hle]
    · cases hl : r.lookup (pyLower kernel) <;>
        simp [scaleSt, _pick_resizerSt, hle, hl]
  have hpx : ∀ r, (pixelSt r clip w h kernel).2 = r := by
    intro r
    cases hl : r.lookup (pyLower kernel) <;>
      simp [pixelSt, _pick_resizerSt, hl]
  refine ⟨hsc reg, hpx reg, by rw [hsc reg], by rw [hpx reg], ?_, ?_⟩
  · by_cases hle : s ≤ 0
    · simp [scaleSt, scale, hle]
    · cases hl : _KERNELS.lookup (pyLower kernel) <;>
        simp [scaleSt, scale, _pick_resizerSt, _pick_resizer, unknownKernelMsg, hle, hl]
  · cases hl : _KERNELS.lookup (pyLower kernel) <;>
      simp [pixelSt, pixel, _pick_resizerSt, _pick_resizer, unknownKernelMsg, hl]
